import Mathlib

/-!
# SmartRide campus-shuttle backend: booking allocator and cancellation

A shallow embedding of the booking logic of `main.py`: the document store is
a pair of lists of flat documents, the two boundary operations
(`create_booking`, `cancel_booking`) thread the store state explicitly, and
the boarding-token pipeline (HMAC-SHA-256 followed by URL-safe unpadded
base64) is implemented in full over byte lists.

Python `dict.get` with a default is mirrored by `Option` fields read through
`Option.getD`; Python integers are `Int`; `datetime` values are `Int` epoch
seconds, with `timedelta(minutes=5)` as `300`.
-/

namespace SmartRide

/-! ## Bytes and UTF-8 -/

/-- Mask for 32-bit words. -/
def mask32 : Nat := 4294967295

/-- UTF-8 encoding of a single character, as byte values. -/
def utf8EncodeCharNat (c : Char) : List Nat :=
  let n := c.toNat
  if n < 128 then [n]
  else if n < 2048 then
    [192 ||| (n >>> 6), 128 ||| (n &&& 63)]
  else if n < 65536 then
    [224 ||| (n >>> 12), 128 ||| ((n >>> 6) &&& 63), 128 ||| (n &&& 63)]
  else
    [240 ||| (n >>> 18), 128 ||| ((n >>> 12) &&& 63),
     128 ||| ((n >>> 6) &&& 63), 128 ||| (n &&& 63)]

/-- The UTF-8 bytes of a string (Python `str.encode()`). -/
def strBytes (s : String) : List Nat :=
  s.data.foldr (fun c acc => utf8EncodeCharNat c ++ acc) []

/-! ## SHA-256 -/

/-- The 64 SHA-256 round constants (FIPS 180-4, in decimal). -/
def shaK : List Nat :=
  [1116352408, 1899447441, 3049323471, 3921009573, 961987163,
   1508970993, 2453635748, 2870763221, 3624381080, 310598401,
   607225278, 1426881987, 1925078388, 2162078206, 2614888103,
   3248222580, 3835390401, 4022224774, 264347078, 604807628,
   770255983, 1249150122, 1555081692, 1996064986, 2554220882,
   2821834349, 2952996808, 3210313671, 3336571891, 3584528711,
   113926993, 338241895, 666307205, 773529912, 1294757372,
   1396182291, 1695183700, 1986661051, 2177026350, 2456956037,
   2730485921, 2820302411, 3259730800, 3345764771, 3516065817,
   3600352804, 4094571909, 275423344, 430227734, 506948616,
   659060556, 883997877, 958139571, 1322822218, 1537002063,
   1747873779, 1955562222, 2024104815, 2227730452, 2361852424,
   2428436474, 2756734187, 3204031479, 3329325298]

/-- The SHA-256 initial hash value (FIPS 180-4, in decimal). -/
def shaH0 : List Nat :=
  [1779033703, 3144134277, 1013904242, 2773480762,
   1359893119, 2600822924, 528734635, 1541459225]

/-- Right rotation of a 32-bit word. -/
def rotr (n x : Nat) : Nat := ((x >>> n) ||| (x <<< (32 - n))) &&& mask32

/-- SHA-256 lowercase sigma 0. -/
def ssig0 (x : Nat) : Nat := (rotr 7 x) ^^^ (rotr 18 x) ^^^ (x >>> 3)

/-- SHA-256 lowercase sigma 1. -/
def ssig1 (x : Nat) : Nat := (rotr 17 x) ^^^ (rotr 19 x) ^^^ (x >>> 10)

/-- SHA-256 uppercase Sigma 0. -/
def bsig0 (x : Nat) : Nat := (rotr 2 x) ^^^ (rotr 13 x) ^^^ (rotr 22 x)

/-- SHA-256 uppercase Sigma 1. -/
def bsig1 (x : Nat) : Nat := (rotr 6 x) ^^^ (rotr 11 x) ^^^ (rotr 25 x)

/-- Big-endian bytes (most significant first) of a number, `k` bytes wide. -/
def beBytes (k n : Nat) : List Nat :=
  (List.range k).map (fun i => (n >>> (8 * (k - 1 - i))) &&& 255)

/-- SHA-256 message padding: append `0x80`, zeros to 56 mod 64, then the
bit length as 8 big-endian bytes. -/
def shaPad (msg : List Nat) : List Nat :=
  let len := msg.length
  let zeros := (64 + 55 - len % 64) % 64
  msg ++ [128] ++ List.replicate zeros 0 ++ beBytes 8 (8 * len)

/-- Split a byte list into 64-byte blocks (the input length is a multiple
of 64 after padding). -/
def toBlocks (l : List Nat) : List (List Nat) :=
  if h : l = [] then []
  else l.take 64 :: toBlocks (l.drop 64)
termination_by l.length
decreasing_by
  simp only [List.length_drop]
  have : l.length ≠ 0 := fun hz => h (List.length_eq_zero.mp hz)
  omega

/-- A 64-byte block as 16 big-endian 32-bit words. -/
def blockWords (block : List Nat) : List Nat :=
  (List.range 16).map (fun i =>
    (block.getD (4 * i) 0) <<< 24 ||| (block.getD (4 * i + 1) 0) <<< 16 |||
    (block.getD (4 * i + 2) 0) <<< 8 ||| block.getD (4 * i + 3) 0)

/-- Extend 16 message words to the 64-entry SHA-256 message schedule. -/
def shaSchedule (ws : List Nat) : List Nat :=
  (List.range 48).foldl (fun acc i =>
    acc ++ [(ssig1 (acc.getD (i + 14) 0) + acc.getD (i + 9) 0 +
             ssig0 (acc.getD (i + 1) 0) + acc.getD i 0) &&& mask32]) ws

/-- One SHA-256 compression round: `kw` is the round constant plus schedule
word pair, the state is the eight working variables `a..h`. -/
def shaRound (st : List Nat) (kw : Nat × Nat) : List Nat :=
  let a := st.getD 0 0
  let b := st.getD 1 0
  let c := st.getD 2 0
  let d := st.getD 3 0
  let e := st.getD 4 0
  let f := st.getD 5 0
  let g := st.getD 6 0
  let h := st.getD 7 0
  let ch := (e &&& f) ^^^ ((e ^^^ mask32) &&& g)
  let t1 := (h + bsig1 e + ch + kw.1 + kw.2) &&& mask32
  let maj := (a &&& b) ^^^ (a &&& c) ^^^ (b &&& c)
  let t2 := (bsig0 a + maj) &&& mask32
  [(t1 + t2) &&& mask32, a, b, c, (d + t1) &&& mask32, e, f, g]

/-- Process one 64-byte block: run 64 rounds and add the result into the
running hash value, word by word, modulo 2^32. -/
def shaBlock (hv : List Nat) (block : List Nat) : List Nat :=
  let ws := shaSchedule (blockWords block)
  let st := (shaK.zip ws).foldl shaRound hv
  (hv.zip st).map (fun p => (p.1 + p.2) &&& mask32)

/-- SHA-256 of a byte list, as the 32 digest bytes. -/
def sha256 (msg : List Nat) : List Nat :=
  let hv := (toBlocks (shaPad msg)).foldl shaBlock shaH0
  hv.foldr (fun w acc => beBytes 4 w ++ acc) []

/-! ## HMAC-SHA-256 and URL-safe base64 -/

/-- HMAC-SHA-256 (`hmac.new(key, msg, hashlib.sha256).digest()`). -/
def hmacSha256 (key msg : List Nat) : List Nat :=
  let k0 := if 64 < key.length then sha256 key else key
  let k1 := k0 ++ List.replicate (64 - k0.length) 0
  let ip := k1.map (fun b => b ^^^ 0x36)
  let op := k1.map (fun b => b ^^^ 0x5c)
  sha256 (op ++ sha256 (ip ++ msg))

/-- The URL-safe base64 alphabet character for a 6-bit value. -/
def b64Char (n : Nat) : Char :=
  if n < 26 then Char.ofNat (65 + n)
  else if n < 52 then Char.ofNat (97 + (n - 26))
  else if n < 62 then Char.ofNat (48 + (n - 52))
  else if n = 62 then '-' else '_'

/-- URL-safe base64 encoding of a byte list, with `=` padding
(`base64.urlsafe_b64encode`). -/
def b64encode : List Nat → List Char
  | a :: b :: c :: rest =>
    let n := a <<< 16 ||| b <<< 8 ||| c
    b64Char (n >>> 18) :: b64Char ((n >>> 12) &&& 63) ::
      b64Char ((n >>> 6) &&& 63) :: b64Char (n &&& 63) :: b64encode rest
  | [a, b] =>
    let n := a <<< 16 ||| b <<< 8
    [b64Char (n >>> 18), b64Char ((n >>> 12) &&& 63), b64Char ((n >>> 6) &&& 63), '=']
  | [a] =>
    let n := a <<< 16
    [b64Char (n >>> 18), b64Char ((n >>> 12) &&& 63), '=', '=']
  | [] => []

/-- Strip trailing `=` characters (Python `str.rstrip("=")`). -/
def rstripEq (s : String) : String :=
  String.mk ((s.data.reverse.dropWhile (fun c => c == '=')).reverse)

/-- The process-wide signing secret: the development default used when the
`SMART_RIDE_SECRET` environment variable is unset. -/
def SECRET : String := "smartride-dev-secret"

/-- `sign_qr` from `main.py`: HMAC-SHA-256 of the payload under the
process-wide secret, URL-safe base64 encoded with padding stripped. -/
def sign_qr (payload : String) : String :=
  rstripEq (String.mk (b64encode (hmacSha256 (strBytes SECRET) (strBytes payload))))

/-! ## Document store and data model

Documents are flat records; `Option` fields mirror keys a stored document
may lack, read through `dict.get` defaults exactly where the code does.
Document ids are drawn from an abstract id space (`Nat`), standing for the
store's object ids. -/

/-- A document of the `shuttle` collection. -/
structure ShuttleDoc where
  sid : Nat
  identifier : String
  campus : String
  status : String
  capacity : Option Int
  occupancy : Option Int
  updated_at : Option Int
  deriving Repr, DecidableEq

/-- `shuttle.get("occupancy", 0)`. -/
def shuttleOcc (s : ShuttleDoc) : Int := s.occupancy.getD 0

/-- `shuttle.get("capacity", 12)`. -/
def shuttleCap (s : ShuttleDoc) : Int := s.capacity.getD 12

/-- A document of the `booking` collection, with the fields `create_booking`
persists; fields read back via `dict.get` are `Option`-valued. -/
structure BookingDoc where
  bid : Nat
  name : String
  email : String
  campus : String
  pickup_code : String
  dropoff_code : String
  scheduled_time : Option Int
  seats : Option Int
  status : Option String
  eta_minutes : Option Int
  assigned_shuttle_id : Option Nat
  assigned_shuttle_identifier : Option String
  qr_token : Option String
  updated_at : Option Int
  deriving Repr, DecidableEq

/-- The request body of `POST /bookings` (`BookingIn`); `seats` defaults to 1
and carries no range constraint in the request model. -/
structure BookingIn where
  name : String
  email : String
  campus : String
  pickup_code : String
  dropoff_code : String
  scheduled_time : Option Int
  seats : Int
  deriving Repr, DecidableEq

/-- The store state: the two collections the allocator touches, plus the
id the next `create_document` returns. -/
structure State where
  shuttles : List ShuttleDoc
  bookings : List BookingDoc
  nextId : Nat
  deriving Repr, DecidableEq

/-- `update_one`: apply `f` to the first document matching `p`, keep the
rest; a no-op when nothing matches. -/
def updateFirst {α : Type} (p : α → Bool) (f : α → α) : List α → List α
  | [] => []
  | a :: as => if p a then f a :: as else a :: updateFirst p f as

/-- The shuttle filter of `create_booking`:
`{"campus": campus, "status": {"$in": ["idle", "enroute"]}}`. -/
def eligible (campus : String) (s : ShuttleDoc) : Bool :=
  s.campus == campus && (s.status == "idle" || s.status == "enroute")

/-- The errors `create_booking` raises as `HTTPException`s. -/
inductive BookingError where
  | invalidRequest
  | noAvailability
  | capacityExceeded
  deriving Repr, DecidableEq

/-- The HTTP status code of each `create_booking` rejection. -/
def bookingErrorStatus : BookingError → Nat
  | .invalidRequest => 400
  | .noAvailability => 409
  | .capacityExceeded => 409

/-- The success payload of `POST /bookings`. -/
structure BookingResult where
  id : Nat
  eta_minutes : Int
  status : String
  qr_token : String
  assigned_shuttle : String
  deriving Repr, DecidableEq

/-- The errors `cancel_booking` raises as `HTTPException`s. -/
inductive CancelError where
  | notFound
  | windowClosed
  deriving Repr, DecidableEq

/-- The HTTP status code of each `cancel_booking` rejection. -/
def cancelErrorStatus : CancelError → Nat
  | .notFound => 404
  | .windowClosed => 400

/-- The success payload of `POST /bookings/{id}/cancel`: the `status`
string returned. -/
inductive CancelResult where
  | alreadyCanceled
  | canceled
  deriving Repr, DecidableEq

/-- The ISO-8601 rendering of the current UTC time embedded in the token
payload (`datetime.utcnow().isoformat()`); represented injectively by the
numeric timestamp. -/
def isoTimestamp (now : Int) : String := toString now

/-- `timedelta(minutes=5)` in epoch seconds. -/
def fiveMinutes : Int := 5 * 60

/-- The `$inc`/`$set` update `create_booking` applies to the matched
shuttle document: occupancy plus `seats`, status `enroute`. -/
def bumpShuttle (now seats : Int) (s : ShuttleDoc) : ShuttleDoc :=
  { s with occupancy := some (s.occupancy.getD 0 + seats)
           status := "enroute"
           updated_at := some now }

/-- The token payload: shuttle identifier, rider email and creation
timestamp joined with `|`. -/
def bookingPayload (shuttle : ShuttleDoc) (booking : BookingIn) (now : Int) : String :=
  shuttle.identifier ++ "|" ++ booking.email ++ "|" ++ isoTimestamp now

/-- The booking document `create_booking` persists: the request fields plus
status, ETA, assigned-shuttle references and the signed token. -/
def newBookingDoc (nid : Nat) (booking : BookingIn) (shuttle : ShuttleDoc)
    (now : Int) : BookingDoc :=
  { bid := nid
    name := booking.name
    email := booking.email
    campus := booking.campus
    pickup_code := booking.pickup_code
    dropoff_code := booking.dropoff_code
    scheduled_time := booking.scheduled_time
    seats := some booking.seats
    status := some "confirmed"
    eta_minutes := some 10
    assigned_shuttle_id := some shuttle.sid
    assigned_shuttle_identifier := some shuttle.identifier
    qr_token := some (sign_qr (bookingPayload shuttle booking now))
    updated_at := none }

/-- The response body of a successful `POST /bookings`. -/
def successResult (st : State) (shuttle : ShuttleDoc) (booking : BookingIn)
    (now : Int) : BookingResult :=
  { id := st.nextId
    eta_minutes := 10
    status := "confirmed"
    qr_token := sign_qr (bookingPayload shuttle booking now)
    assigned_shuttle := shuttle.identifier }

/-- The store state after a successful `POST /bookings`: the matched
shuttle updated in place, the new booking appended. -/
def successState (st : State) (shuttle : ShuttleDoc) (booking : BookingIn)
    (now : Int) : State :=
  { shuttles := updateFirst (fun s => s.sid == shuttle.sid)
      (bumpShuttle now booking.seats) st.shuttles
    bookings := st.bookings ++ [newBookingDoc st.nextId booking shuttle now]
    nextId := st.nextId + 1 }

/-- `create_booking` from `main.py`, threading the store state: each
`raise HTTPException` returns the state reached at that point. `now` is
`datetime.utcnow()`. -/
def create_booking (st : State) (booking : BookingIn) (now : Int) :
    Except BookingError BookingResult × State :=
  if booking.pickup_code == booking.dropoff_code then
    (.error .invalidRequest, st)
  else
    match st.shuttles.find? (eligible booking.campus) with
    | none => (.error .noAvailability, st)
    | some shuttle =>
      let capacity := shuttle.capacity.getD 12
      let occupancy := shuttle.occupancy.getD 0
      if capacity < occupancy + booking.seats then
        (.error .capacityExceeded, st)
      else
        (.ok (successResult st shuttle booking now),
         successState st shuttle booking now)

/-- The `$inc` update `cancel_booking` applies to the assigned shuttle:
occupancy minus the booking's reserved seats. -/
def decShuttle (seats : Int) (s : ShuttleDoc) : ShuttleDoc :=
  { s with occupancy := some (s.occupancy.getD 0 - seats) }

/-- The `$set` update `cancel_booking` applies to the booking document. -/
def markCanceled (now : Int) (x : BookingDoc) : BookingDoc :=
  { x with status := some "canceled", updated_at := some now }

/-- The tail of `cancel_booking` after all checks pass: free the reserved
seats on the assigned shuttle (best-effort) and mark the booking canceled. -/
def cancelEffect (st : State) (b : BookingDoc) (now : Int) :
    Except CancelError CancelResult × State :=
  (.ok .canceled,
   { st with
       shuttles :=
         match b.assigned_shuttle_id with
         | some sid =>
           updateFirst (fun s : ShuttleDoc => s.sid == sid) (decShuttle (b.seats.getD 1)) st.shuttles
         | none => st.shuttles
       bookings := updateFirst (fun x => x.bid == b.bid) (markCanceled now) st.bookings })

/-- `cancel_booking` from `main.py`, threading the store state: each
`raise HTTPException` returns the state reached at that point. `now` is
`datetime.utcnow()`. -/
def cancel_booking (st : State) (booking_id : Nat) (now : Int) :
    Except CancelError CancelResult × State :=
  match st.bookings.find? (fun b => b.bid == booking_id) with
  | none => (.error .notFound, st)
  | some b =>
    if b.status == some "canceled" then
      (.ok .alreadyCanceled, st)
    else
      match b.scheduled_time with
      | some scheduled =>
        if scheduled - fiveMinutes < now then (.error .windowClosed, st)
        else cancelEffect st b now
      | none => cancelEffect st b now

/-! ## Helper lemmas -/

theorem find?_decomp {α : Type} (p : α → Bool) :
    ∀ (l : List α) (x : α), l.find? p = some x →
      ∃ l1 l2, l = l1 ++ x :: l2 ∧ ∀ a ∈ l1, p a = false
  | [], x, h => by simp at h
  | a :: as, x, h => by
    by_cases hp : p a
    · rw [List.find?_cons_of_pos _ hp] at h
      have hax : a = x := Option.some.inj h
      exact ⟨[], as, by simp [hax], by simp⟩
    · rw [List.find?_cons_of_neg _ (by simpa using hp)] at h
      obtain ⟨l1, l2, hdec, hl1⟩ := find?_decomp p as x h
      refine ⟨a :: l1, l2, by simp [hdec], ?_⟩
      intro c hc
      rcases List.mem_cons.mp hc with rfl | hc
      · simpa using hp
      · exact hl1 c hc

theorem updateFirst_append {α : Type} (p : α → Bool) (f : α → α)
    (l1 : List α) (x : α) (l2 : List α)
    (h1 : ∀ a ∈ l1, p a = false) (hx : p x = true) :
    updateFirst p f (l1 ++ x :: l2) = l1 ++ f x :: l2 := by
  induction l1 with
  | nil => simp [updateFirst, hx]
  | cons a as ih =>
    have ha : p a = false := h1 a (by simp)
    simp only [List.cons_append, updateFirst, ha]
    simp [ih (fun c hc => h1 c (by simp [hc]))]

theorem updateFirst_no_match {α : Type} (p : α → Bool) (f : α → α)
    (l : List α) (h : ∀ a ∈ l, p a = false) :
    updateFirst p f l = l := by
  induction l with
  | nil => rfl
  | cons a as ih =>
    have ha : p a = false := h a (by simp)
    simp only [updateFirst, ha]
    simp [ih (fun c hc => h c (by simp [hc]))]

theorem nodup_key_ne {α β : Type} [DecidableEq β] (key : α → β)
    (l1 : List α) (x : α) (l2 : List α)
    (h : ((l1 ++ x :: l2).map key).Nodup) : ∀ a ∈ l1, key a ≠ key x := by
  intro a ha hk
  rw [List.map_append, List.nodup_append] at h
  exact h.2.2 (List.mem_map_of_mem key ha) (by simp [hk])

/-- Case analysis of `create_booking`: exactly one of the four branches of
the code runs, and holds the stated guard and outcome. -/
theorem create_booking_cases (st : State) (b : BookingIn) (now : Int) :
    (b.pickup_code = b.dropoff_code ∧
       create_booking st b now = (.error .invalidRequest, st)) ∨
    (b.pickup_code ≠ b.dropoff_code ∧
       st.shuttles.find? (eligible b.campus) = none ∧
       create_booking st b now = (.error .noAvailability, st)) ∨
    (∃ s, b.pickup_code ≠ b.dropoff_code ∧
       st.shuttles.find? (eligible b.campus) = some s ∧
       shuttleCap s < shuttleOcc s + b.seats ∧
       create_booking st b now = (.error .capacityExceeded, st)) ∨
    (∃ s, b.pickup_code ≠ b.dropoff_code ∧
       st.shuttles.find? (eligible b.campus) = some s ∧
       shuttleOcc s + b.seats ≤ shuttleCap s ∧
       create_booking st b now =
         (.ok (successResult st s b now), successState st s b now)) := by
  by_cases hpd : b.pickup_code = b.dropoff_code
  · exact Or.inl ⟨hpd, by simp [create_booking, hpd]⟩
  · cases hf : st.shuttles.find? (eligible b.campus) with
    | none =>
      exact Or.inr (Or.inl ⟨hpd, rfl,
        by simp [create_booking, beq_iff_eq, hpd, hf]⟩)
    | some s =>
      by_cases hc : shuttleCap s < shuttleOcc s + b.seats
      · refine Or.inr (Or.inr (Or.inl ⟨s, hpd, rfl, hc, ?_⟩))
        have hc' : s.capacity.getD 12 < s.occupancy.getD 0 + b.seats := hc
        simp [create_booking, beq_iff_eq, hpd, hf, hc']
      · refine Or.inr (Or.inr (Or.inr ⟨s, hpd, rfl, not_lt.mp hc, ?_⟩))
        have hc' : ¬ s.capacity.getD 12 < s.occupancy.getD 0 + b.seats := hc
        simp [create_booking, beq_iff_eq, hpd, hf, hc']

/-- Case analysis of `cancel_booking`: exactly one of the four branches of
the code runs, and holds the stated guard and outcome. -/
theorem cancel_booking_cases (st : State) (booking_id : Nat) (now : Int) :
    (st.bookings.find? (fun b => b.bid == booking_id) = none ∧
       cancel_booking st booking_id now = (.error .notFound, st)) ∨
    (∃ b, st.bookings.find? (fun b => b.bid == booking_id) = some b ∧
       b.status = some "canceled" ∧
       cancel_booking st booking_id now = (.ok .alreadyCanceled, st)) ∨
    (∃ b scheduled, st.bookings.find? (fun b => b.bid == booking_id) = some b ∧
       b.status ≠ some "canceled" ∧ b.scheduled_time = some scheduled ∧
       scheduled - fiveMinutes < now ∧
       cancel_booking st booking_id now = (.error .windowClosed, st)) ∨
    (∃ b, st.bookings.find? (fun b => b.bid == booking_id) = some b ∧
       b.status ≠ some "canceled" ∧
       (b.scheduled_time = none ∨
         ∃ scheduled, b.scheduled_time = some scheduled ∧ now ≤ scheduled - fiveMinutes) ∧
       cancel_booking st booking_id now = cancelEffect st b now) := by
  cases hf : st.bookings.find? (fun b => b.bid == booking_id) with
  | none => exact Or.inl ⟨rfl, by simp [cancel_booking, hf]⟩
  | some b =>
    by_cases hcan : b.status = some "canceled"
    · exact Or.inr (Or.inl ⟨b, rfl, hcan,
        by simp [cancel_booking, hf, hcan]⟩)
    · cases hsch : b.scheduled_time with
      | none =>
        refine Or.inr (Or.inr (Or.inr ⟨b, rfl, hcan, Or.inl hsch, ?_⟩))
        simp [cancel_booking, hf, hcan, hsch]
      | some scheduled =>
        by_cases hw : scheduled - fiveMinutes < now
        · refine Or.inr (Or.inr (Or.inl ⟨b, scheduled, rfl, hcan, hsch, hw, ?_⟩))
          simp [cancel_booking, hf, hcan, hsch, hw]
        · refine Or.inr (Or.inr (Or.inr ⟨b, rfl, hcan,
            Or.inr ⟨scheduled, hsch, not_lt.mp hw⟩, ?_⟩))
          simp [cancel_booking, hf, hcan, hsch, hw]

/-! ## Concrete documents used by the witnesses -/

/-- An idle Tesano shuttle with capacity 12 and empty seats. -/
def exShuttle : ShuttleDoc :=
  ⟨1, "SR-TES-01", "Tesano", "idle", some 12, some 0, none⟩

/-- A second Tesano shuttle, idle and empty. -/
def exShuttle2 : ShuttleDoc :=
  ⟨2, "SR-TES-02", "Tesano", "idle", some 12, some 0, none⟩

/-- A nearly full Tesano shuttle: 11 of 12 seats taken. -/
def exShuttleFull : ShuttleDoc :=
  ⟨3, "SR-TES-03", "Tesano", "idle", some 12, some 11, none⟩

/-- A store with one idle empty shuttle and no bookings. -/
def exState : State := ⟨[exShuttle], [], 100⟩

/-- A valid 5-seat booking request for Tesano. -/
def exBooking : BookingIn :=
  ⟨"Ama", "ama@gctu.edu.gh", "Tesano", "TES-LIB", "TES-ADM", none, 5⟩

/-! ## The claims -/

/-- C1: a `CreateBooking` call whose selected shuttle would overflow its
capacity is rejected with `CapacityExceeded` and leaves the store unchanged;
consequently, when every shuttle's occupancy is at most its capacity before
the call, every shuttle's occupancy is at most its capacity after the call,
whatever the outcome. -/
theorem create_booking_occupancy_le_capacity (st : State) (b : BookingIn) (now : Int)
    (hnd : (st.shuttles.map (fun s => s.sid)).Nodup)
    (hinv : ∀ s ∈ st.shuttles, shuttleOcc s ≤ shuttleCap s) :
    (∀ s, st.shuttles.find? (eligible b.campus) = some s →
        shuttleCap s < shuttleOcc s + b.seats →
        b.pickup_code ≠ b.dropoff_code →
        create_booking st b now = (.error .capacityExceeded, st)) ∧
    (∀ s ∈ (create_booking st b now).2.shuttles, shuttleOcc s ≤ shuttleCap s) := by
  constructor
  · intro s hf hover hpd
    rcases create_booking_cases st b now with ⟨h1, _⟩ | ⟨_, h2, _⟩ |
      ⟨s', _, h2, _, heq⟩ | ⟨s', _, h2, h3, _⟩
    · exact absurd h1 hpd
    · rw [hf] at h2; cases h2
    · exact heq
    · rw [hf] at h2
      rw [← Option.some.inj h2] at h3
      exact absurd h3 (not_le.mpr hover)
  · rcases create_booking_cases st b now with ⟨_, heq⟩ | ⟨_, _, heq⟩ |
      ⟨s', _, _, _, heq⟩ | ⟨s', _, hf, hle, heq⟩
    · rw [heq]; exact hinv
    · rw [heq]; exact hinv
    · rw [heq]; exact hinv
    · rw [heq]
      obtain ⟨l1, l2, hdec, _⟩ := find?_decomp _ _ _ hf
      have hne : ∀ a ∈ l1, a.sid ≠ s'.sid := by
        intro a ha
        exact nodup_key_ne (fun s => s.sid) l1 s' l2 (by rw [hdec] at hnd; exact hnd) a ha
      have hupd : updateFirst (fun s => s.sid == s'.sid) (bumpShuttle now b.seats) st.shuttles
          = l1 ++ bumpShuttle now b.seats s' :: l2 := by
        rw [hdec]
        exact updateFirst_append _ _ l1 s' l2 (fun a ha => by simp [hne a ha]) (by simp)
      intro a ha
      simp only [successState] at ha
      rw [hupd] at ha
      rcases List.mem_append.mp ha with ha | ha
      · exact hinv a (by rw [hdec]; exact List.mem_append.mpr (Or.inl ha))
      · rcases List.mem_cons.mp ha with rfl | ha
        · simp only [bumpShuttle, shuttleOcc, shuttleCap, Option.getD_some]
          simpa [shuttleOcc, shuttleCap] using hle
        · exact hinv a (by rw [hdec]; exact List.mem_append.mpr (Or.inr (List.mem_cons.mpr (Or.inr ha))))

/-- C1 witness: the hypotheses hold of the one-shuttle example store, and the
theorem yields the occupancy bound after a concrete booking call. -/
theorem create_booking_occupancy_le_capacity_witness :
    ((exState.shuttles.map (fun s => s.sid)).Nodup ∧
      (∀ s ∈ exState.shuttles, shuttleOcc s ≤ shuttleCap s)) ∧
    (∀ s ∈ (create_booking exState exBooking 0).2.shuttles, shuttleOcc s ≤ shuttleCap s) :=
  ⟨⟨by decide, by decide⟩,
   (create_booking_occupancy_le_capacity exState exBooking 0 (by decide) (by decide)).2⟩

/-- C2: a successful `CreateBooking` bumps the selected shuttle's occupancy
by exactly the requested seats and sets its status to `enroute`, persists a
`confirmed` booking document with ETA 10, and returns the booking id, the
ETA 10, status `confirmed`, the signed token and the shuttle identifier. -/
theorem create_booking_success_effects (st : State) (b : BookingIn) (now : Int)
    (r : BookingResult) (st' : State)
    (hnd : (st.shuttles.map (fun s => s.sid)).Nodup)
    (h : create_booking st b now = (.ok r, st')) :
    ∃ s l1 l2,
      st.shuttles.find? (eligible b.campus) = some s ∧
      st.shuttles = l1 ++ s :: l2 ∧
      st'.shuttles = l1 ++ { s with occupancy := some (shuttleOcc s + b.seats),
                                    status := "enroute",
                                    updated_at := some now } :: l2 ∧
      st'.bookings = st.bookings ++ [newBookingDoc st.nextId b s now] ∧
      (newBookingDoc st.nextId b s now).status = some "confirmed" ∧
      (newBookingDoc st.nextId b s now).bid = st.nextId ∧
      r = { id := st.nextId
            eta_minutes := 10
            status := "confirmed"
            qr_token := sign_qr (bookingPayload s b now)
            assigned_shuttle := s.identifier } := by
  rcases create_booking_cases st b now with ⟨_, heq⟩ | ⟨_, _, heq⟩ |
    ⟨s', _, _, _, heq⟩ | ⟨s', _, hf, _, heq⟩
  · rw [h] at heq; simp at heq
  · rw [h] at heq; simp at heq
  · rw [h] at heq; simp at heq
  · rw [h] at heq
    have hr : r = successResult st s' b now := Except.ok.inj (congrArg Prod.fst heq)
    have hst : st' = successState st s' b now := congrArg Prod.snd heq
    obtain ⟨l1, l2, hdec, _⟩ := find?_decomp _ _ _ hf
    have hne : ∀ a ∈ l1, a.sid ≠ s'.sid := by
      intro a ha
      exact nodup_key_ne (fun s => s.sid) l1 s' l2 (by rw [hdec] at hnd; exact hnd) a ha
    refine ⟨s', l1, l2, hf, hdec, ?_, ?_, rfl, rfl, ?_⟩
    · rw [hst]
      simp only [successState]
      rw [hdec]
      exact updateFirst_append _ _ l1 s' l2 (fun a ha => by simp [hne a ha]) (by simp)
    · rw [hst]; rfl
    · rw [hr]; rfl

/-- C2 witness: concrete success of the example booking, with all effects. -/
theorem create_booking_success_effects_witness :
    (exState.shuttles.map (fun s => s.sid)).Nodup ∧
    (∃ s l1 l2,
      exState.shuttles.find? (eligible exBooking.campus) = some s ∧
      exState.shuttles = l1 ++ s :: l2 ∧
      (successState exState exShuttle exBooking 0).shuttles =
        l1 ++ { s with occupancy := some (shuttleOcc s + exBooking.seats),
                       status := "enroute",
                       updated_at := some (0 : Int) } :: l2 ∧
      (successState exState exShuttle exBooking 0).bookings =
        exState.bookings ++ [newBookingDoc exState.nextId exBooking s 0] ∧
      (newBookingDoc exState.nextId exBooking s 0).status = some "confirmed" ∧
      (newBookingDoc exState.nextId exBooking s 0).bid = exState.nextId ∧
      successResult exState exShuttle exBooking 0 =
        { id := exState.nextId
          eta_minutes := 10
          status := "confirmed"
          qr_token := sign_qr (bookingPayload s exBooking 0)
          assigned_shuttle := s.identifier }) :=
  ⟨by decide,
   create_booking_success_effects exState exBooking 0
     (successResult exState exShuttle exBooking 0)
     (successState exState exShuttle exBooking 0) (by decide) rfl⟩

/-- C3: `create_booking` fails with `InvalidRequest` (400) exactly when the
pickup and dropoff codes coincide; otherwise with `NoAvailability` (409)
exactly when no shuttle of the campus is `idle` or `enroute`; otherwise with
`CapacityExceeded` (409) exactly when the selected shuttle's occupancy plus
the requested seats exceeds its capacity; and succeeds exactly when none of
the three conditions holds. -/
theorem create_booking_error_characterization (st : State) (b : BookingIn) (now : Int) :
    ((create_booking st b now).1 = .error .invalidRequest ↔
       b.pickup_code = b.dropoff_code) ∧
    ((create_booking st b now).1 = .error .noAvailability ↔
       b.pickup_code ≠ b.dropoff_code ∧
       ∀ s ∈ st.shuttles, eligible b.campus s = false) ∧
    ((create_booking st b now).1 = .error .capacityExceeded ↔
       b.pickup_code ≠ b.dropoff_code ∧
       ∃ s, st.shuttles.find? (eligible b.campus) = some s ∧
         shuttleCap s < shuttleOcc s + b.seats) ∧
    ((∃ r, (create_booking st b now).1 = .ok r) ↔
       b.pickup_code ≠ b.dropoff_code ∧
       ∃ s, st.shuttles.find? (eligible b.campus) = some s ∧
         shuttleOcc s + b.seats ≤ shuttleCap s) ∧
    bookingErrorStatus .invalidRequest = 400 ∧
    bookingErrorStatus .noAvailability = 409 ∧
    bookingErrorStatus .capacityExceeded = 409 := by
  have hnone : ∀ (h : st.shuttles.find? (eligible b.campus) = none),
      ∀ s ∈ st.shuttles, eligible b.campus s = false := by
    intro h s hs
    simpa using List.find?_eq_none.mp h s hs
  have hsome : ∀ (s : ShuttleDoc), st.shuttles.find? (eligible b.campus) = some s →
      ¬ ∀ x ∈ st.shuttles, eligible b.campus x = false := by
    intro s hf hall
    have hmem := List.mem_of_find?_eq_some hf
    have := List.find?_some hf
    rw [hall s hmem] at this
    cases this
  rcases create_booking_cases st b now with ⟨hpd, heq⟩ | ⟨hpd, hf, heq⟩ |
    ⟨s, hpd, hf, hc, heq⟩ | ⟨s, hpd, hf, hc, heq⟩
  · rw [heq]
    refine ⟨by simp [hpd], by simp [hpd], by simp [hpd], by simp [hpd], rfl, rfl, rfl⟩
  · rw [heq]
    refine ⟨by simp [hpd], ?_, by simp [hpd, hf], by simp [hpd, hf], rfl, rfl, rfl⟩
    exact ⟨fun _ => ⟨hpd, hnone hf⟩, fun _ => rfl⟩
  · rw [heq]
    refine ⟨by simp [hpd], by simp [hpd, hsome s hf], ?_, ?_, rfl, rfl, rfl⟩
    · exact ⟨fun _ => ⟨hpd, s, hf, hc⟩, fun _ => rfl⟩
    · constructor
      · rintro ⟨r, hr⟩
        simp at hr
      · rintro ⟨_, s', hs', hle⟩
        rw [hf] at hs'
        rw [← Option.some.inj hs'] at hle
        exact absurd hc (not_lt.mpr hle)
  · rw [heq]
    refine ⟨by simp [hpd], by simp [hpd, hsome s hf], ?_, ?_, rfl, rfl, rfl⟩
    · constructor
      · intro hr
        simp at hr
      · rintro ⟨_, s', hs', hlt⟩
        rw [hf] at hs'
        rw [← Option.some.inj hs'] at hlt
        exact absurd hlt (not_lt.mpr hc)
    · exact ⟨fun _ => ⟨hpd, s, hf, hc⟩, fun _ => ⟨successResult st s b now, rfl⟩⟩

/-- C4: every rejected `create_booking` call leaves the store untouched: no
shuttle document is updated and no booking document is created. -/
theorem create_booking_error_no_mutation (st : State) (b : BookingIn) (now : Int)
    (e : BookingError) (h : (create_booking st b now).1 = .error e) :
    (create_booking st b now).2 = st := by
  rcases create_booking_cases st b now with ⟨_, heq⟩ | ⟨_, _, heq⟩ |
    ⟨s, _, _, _, heq⟩ | ⟨s, _, _, _, heq⟩
  · rw [heq]
  · rw [heq]
  · rw [heq]
  · rw [heq] at h; cases h

/-- A booking request whose pickup and dropoff codes coincide. -/
def exBookingSame : BookingIn :=
  ⟨"Ama", "ama@gctu.edu.gh", "Tesano", "TES-LIB", "TES-LIB", none, 1⟩

/-- C4 witness: a concrete rejected call (same pickup and dropoff) whose
resulting store equals the input store. -/
theorem create_booking_error_no_mutation_witness :
    (create_booking exState exBookingSame 0).1 = Except.error BookingError.invalidRequest ∧
    (create_booking exState exBookingSame 0).2 = exState :=
  ⟨rfl, create_booking_error_no_mutation exState exBookingSame 0 .invalidRequest rfl⟩

/-- C5: canceling an already-canceled booking is an idempotent no-op: the
call returns the `already_canceled` indicator, raises no error, and leaves
the whole store (shuttle occupancies included) unchanged. -/
theorem cancel_booking_idempotent (st : State) (booking_id : Nat) (now : Int)
    (b : BookingDoc)
    (hf : st.bookings.find? (fun x => x.bid == booking_id) = some b)
    (hcan : b.status = some "canceled") :
    cancel_booking st booking_id now = (.ok .alreadyCanceled, st) := by
  simp [cancel_booking, hf, hcan]

/-- A booking document already in status `canceled`. -/
def exCanceledBooking : BookingDoc :=
  ⟨7, "Kofi", "kofi@gctu.edu.gh", "Tesano", "TES-LIB", "TES-ADM", none,
   some 2, some "canceled", some 10, some 1, some "SR-TES-01", none, none⟩

/-- A store holding one canceled booking and one shuttle. -/
def exCancelState : State := ⟨[exShuttle], [exCanceledBooking], 101⟩

/-- C5 witness: a concrete second cancellation of a canceled booking returns
`already_canceled` and changes nothing. -/
theorem cancel_booking_idempotent_witness :
    exCancelState.bookings.find? (fun x => x.bid == 7) = some exCanceledBooking ∧
    exCanceledBooking.status = some "canceled" ∧
    cancel_booking exCancelState 7 0 = (.ok .alreadyCanceled, exCancelState) :=
  ⟨rfl, rfl, cancel_booking_idempotent exCancelState 7 0 exCanceledBooking rfl rfl⟩

/-- C9: canceling a booking identifier that matches no stored booking fails
with `NotFound`, mapped to HTTP 404, and leaves the store unchanged. -/
theorem cancel_booking_not_found (st : State) (booking_id : Nat) (now : Int)
    (hf : st.bookings.find? (fun x => x.bid == booking_id) = none) :
    cancel_booking st booking_id now = (.error .notFound, st) ∧
    cancelErrorStatus .notFound = 404 :=
  ⟨by simp [cancel_booking, hf], rfl⟩

/-- C9 witness: canceling an unknown id against the example store. -/
theorem cancel_booking_not_found_witness :
    exState.bookings.find? (fun x => x.bid == 55) = none ∧
    cancel_booking exState 55 0 = (.error .notFound, exState) ∧
    cancelErrorStatus .notFound = 404 :=
  ⟨rfl, cancel_booking_not_found exState 55 0 rfl⟩

/-- C10: `create_booking` considers only the first shuttle of the campus
with status `idle` or `enroute` (every shuttle before it is ineligible); if
that shuttle cannot fit the requested seats the call fails with
`CapacityExceeded`, whatever the other shuttles hold. -/
theorem create_booking_first_match_only (st : State) (b : BookingIn) (now : Int)
    (s : ShuttleDoc)
    (hpd : b.pickup_code ≠ b.dropoff_code)
    (hf : st.shuttles.find? (eligible b.campus) = some s)
    (hover : shuttleCap s < shuttleOcc s + b.seats) :
    (∃ l1 l2, st.shuttles = l1 ++ s :: l2 ∧ ∀ a ∈ l1, eligible b.campus a = false) ∧
    create_booking st b now = (.error .capacityExceeded, st) := by
  refine ⟨find?_decomp _ _ _ hf, ?_⟩
  rcases create_booking_cases st b now with ⟨h1, _⟩ | ⟨_, h2, _⟩ |
    ⟨s', _, _, _, heq⟩ | ⟨s', _, h2, h3, _⟩
  · exact absurd h1 hpd
  · rw [hf] at h2; cases h2
  · exact heq
  · rw [hf] at h2
    rw [← Option.some.inj h2] at h3
    exact absurd h3 (not_le.mpr hover)

/-- A campus with a nearly full first shuttle and an empty second one. -/
def exTwoShuttleState : State := ⟨[exShuttleFull, exShuttle2], [], 200⟩

/-- C10 witness: booking 5 seats fails with `CapacityExceeded` on the first
shuttle (11 + 5 > 12) even though the second eligible shuttle is empty. -/
theorem create_booking_first_match_only_witness :
    exBooking.pickup_code ≠ exBooking.dropoff_code ∧
    exTwoShuttleState.shuttles.find? (eligible exBooking.campus) = some exShuttleFull ∧
    shuttleCap exShuttleFull < shuttleOcc exShuttleFull + exBooking.seats ∧
    eligible exBooking.campus exShuttle2 = true ∧
    shuttleOcc exShuttle2 + exBooking.seats ≤ shuttleCap exShuttle2 ∧
    ((∃ l1 l2, exTwoShuttleState.shuttles = l1 ++ exShuttleFull :: l2 ∧
        ∀ a ∈ l1, eligible exBooking.campus a = false) ∧
      create_booking exTwoShuttleState exBooking 0 =
        (.error .capacityExceeded, exTwoShuttleState)) :=
  ⟨by decide, rfl, by decide, by decide, by decide,
   create_booking_first_match_only exTwoShuttleState exBooking 0 exShuttleFull
     (by decide) rfl (by decide)⟩

/-- A confirmed booking scheduled for time 300, on the example shuttle. -/
def exConfirmedScheduled : BookingDoc :=
  ⟨8, "Esi", "esi@gctu.edu.gh", "Tesano", "TES-LIB", "TES-ADM", some 300,
   some 3, some "confirmed", some 10, some 1, some "SR-TES-01", none, none⟩

/-- A store holding that scheduled booking and its shuttle. -/
def exScheduledState : State := ⟨[exShuttle], [exConfirmedScheduled], 102⟩

/-- C6 counterexample: a cancellation issued at exactly
`scheduled_time − 5 minutes` (now = 0 for a booking scheduled at 300)
succeeds, where the claim says it fails with `WindowClosed`: the code's
cutoff comparison is strict. -/
theorem cancel_window_boundary_counterexample :
    exConfirmedScheduled.status = some "confirmed" ∧
    exConfirmedScheduled.scheduled_time = some 300 ∧
    exScheduledState.bookings.find? (fun x => x.bid == 8) = some exConfirmedScheduled ∧
    (0 : Int) = 300 - fiveMinutes ∧
    (cancel_booking exScheduledState 8 0).1 = Except.ok CancelResult.canceled :=
  ⟨rfl, rfl, rfl, by decide, rfl⟩

/-- C6 (amended): canceling a confirmed scheduled booking fails with
`WindowClosed` (HTTP 400) when the current time is strictly after
`scheduled_time − 5 minutes` (including any time past the scheduled time),
and succeeds at or strictly before that boundary. -/
theorem cancel_booking_window (st : State) (booking_id : Nat) (now : Int)
    (b : BookingDoc) (scheduled : Int)
    (hf : st.bookings.find? (fun x => x.bid == booking_id) = some b)
    (hconf : b.status = some "confirmed")
    (hsch : b.scheduled_time = some scheduled) :
    (scheduled - fiveMinutes < now →
       cancel_booking st booking_id now = (.error .windowClosed, st) ∧
       cancelErrorStatus .windowClosed = 400) ∧
    (now ≤ scheduled - fiveMinutes →
       (cancel_booking st booking_id now).1 = .ok .canceled) := by
  have hne : (b.status == some "canceled") = false := by rw [hconf]; rfl
  constructor
  · intro hw
    exact ⟨by simp [cancel_booking, hf, hne, hsch, hw], rfl⟩
  · intro hw
    have hnw : ¬ (scheduled - fiveMinutes < now) := not_lt.mpr hw
    simp [cancel_booking, hf, hne, hsch, hnw, cancelEffect]

/-- C6 witness: the amended window rule applied to the concrete scheduled
booking at a time past the cutoff. -/
theorem cancel_booking_window_witness :
    (exScheduledState.bookings.find? (fun x => x.bid == 8) = some exConfirmedScheduled ∧
      exConfirmedScheduled.status = some "confirmed" ∧
      exConfirmedScheduled.scheduled_time = some 300) ∧
    ((300 - fiveMinutes < (100 : Int) →
        cancel_booking exScheduledState 8 100 = (.error .windowClosed, exScheduledState) ∧
        cancelErrorStatus .windowClosed = 400) ∧
      ((100 : Int) ≤ 300 - fiveMinutes →
        (cancel_booking exScheduledState 8 100).1 = .ok .canceled)) :=
  ⟨⟨rfl, rfl, rfl⟩,
   cancel_booking_window exScheduledState 8 100 exConfirmedScheduled 300 rfl rfl rfl⟩

/-- C7: a successful cancellation of a non-canceled booking (always possible
when the booking carries no `scheduled_time`) marks exactly that booking
`canceled` and decrements the assigned shuttle's occupancy by exactly the
booking's reserved seat count; a missing shuttle reference or a shuttle id
matching no stored shuttle is swallowed, leaving the shuttles untouched. -/
theorem cancel_booking_success_effects (st : State) (booking_id : Nat) (now : Int)
    (b : BookingDoc)
    (hnd : (st.shuttles.map (fun s => s.sid)).Nodup)
    (hf : st.bookings.find? (fun x => x.bid == booking_id) = some b)
    (hncan : b.status ≠ some "canceled")
    (hwin : b.scheduled_time = none ∨
      ∃ scheduled, b.scheduled_time = some scheduled ∧ now ≤ scheduled - fiveMinutes) :
    (cancel_booking st booking_id now).1 = .ok .canceled ∧
    (∃ m1 m2, st.bookings = m1 ++ b :: m2 ∧
       (cancel_booking st booking_id now).2.bookings = m1 ++ markCanceled now b :: m2) ∧
    (b.assigned_shuttle_id = none →
       (cancel_booking st booking_id now).2.shuttles = st.shuttles) ∧
    (∀ sid, b.assigned_shuttle_id = some sid → (∀ s ∈ st.shuttles, s.sid ≠ sid) →
       (cancel_booking st booking_id now).2.shuttles = st.shuttles) ∧
    (∀ sid sh k1 k2, b.assigned_shuttle_id = some sid →
       st.shuttles = k1 ++ sh :: k2 → sh.sid = sid →
       (cancel_booking st booking_id now).2.shuttles =
         k1 ++ decShuttle (b.seats.getD 1) sh :: k2) := by
  have hne : (b.status == some "canceled") = false := beq_eq_false_iff_ne.mpr hncan
  have heq : cancel_booking st booking_id now = cancelEffect st b now := by
    cases hsch : b.scheduled_time with
    | none => simp [cancel_booking, hf, hne, hsch]
    | some scheduled =>
      rcases hwin with h | ⟨scheduled', hs', hle⟩
      · rw [hsch] at h; cases h
      · rw [hsch] at hs'
        rw [← Option.some.inj hs'] at hle
        have hnw : ¬ (scheduled - fiveMinutes < now) := not_lt.mpr hle
        simp [cancel_booking, hf, hne, hsch, hnw]
  rw [heq]
  have hbid : b.bid = booking_id := by simpa using List.find?_some hf
  refine ⟨rfl, ?_, ?_, ?_, ?_⟩
  · obtain ⟨m1, m2, hdec, hm1⟩ := find?_decomp _ _ _ hf
    refine ⟨m1, m2, hdec, ?_⟩
    show updateFirst (fun x => x.bid == b.bid) (markCanceled now) st.bookings = _
    rw [hdec]
    refine updateFirst_append _ _ m1 b m2 ?_ (by simp)
    intro a ha
    have := hm1 a ha
    simp only [hbid]
    simpa using this
  · intro hnone
    show (match b.assigned_shuttle_id with
          | some sid =>
            updateFirst (fun s : ShuttleDoc => s.sid == sid) (decShuttle (b.seats.getD 1)) st.shuttles
          | none => st.shuttles) = st.shuttles
    rw [hnone]
  · intro sid hsid hall
    show (match b.assigned_shuttle_id with
          | some sid =>
            updateFirst (fun s : ShuttleDoc => s.sid == sid) (decShuttle (b.seats.getD 1)) st.shuttles
          | none => st.shuttles) = st.shuttles
    rw [hsid]
    exact updateFirst_no_match _ _ _ (fun a ha => by simp [hall a ha])
  · intro sid sh k1 k2 hsid hdec hsh
    show (match b.assigned_shuttle_id with
          | some sid =>
            updateFirst (fun s : ShuttleDoc => s.sid == sid) (decShuttle (b.seats.getD 1)) st.shuttles
          | none => st.shuttles) = _
    rw [hsid, hdec]
    refine updateFirst_append _ _ k1 sh k2 ?_ (by simp [hsh])
    intro a ha
    have h3 : a.sid ≠ sh.sid :=
      nodup_key_ne (fun s => s.sid) k1 sh k2 (by rw [hdec] at hnd; exact hnd) a ha
    rw [hsh] at h3
    simpa using h3

/-- An unscheduled confirmed booking holding 4 seats on the example shuttle. -/
def exAsapBooking : BookingDoc :=
  ⟨9, "Yaw", "yaw@gctu.edu.gh", "Tesano", "TES-ADM", "TES-HOS", none,
   some 4, some "confirmed", some 10, some 1, some "SR-TES-01", none, none⟩

/-- A store with one shuttle carrying 4 riders and the matching booking. -/
def exAsapState : State :=
  ⟨[⟨1, "SR-TES-01", "Tesano", "enroute", some 12, some 4, none⟩],
   [exAsapBooking], 103⟩

/-- C7 witness: canceling the concrete ASAP booking succeeds and returns its
4 seats to the assigned shuttle. -/
theorem cancel_booking_success_effects_witness :
    ((exAsapState.shuttles.map (fun s => s.sid)).Nodup ∧
      exAsapState.bookings.find? (fun x => x.bid == 9) = some exAsapBooking ∧
      exAsapBooking.status ≠ some "canceled" ∧
      exAsapBooking.scheduled_time = none) ∧
    ((cancel_booking exAsapState 9 0).1 = .ok .canceled ∧
      (∃ m1 m2, exAsapState.bookings = m1 ++ exAsapBooking :: m2 ∧
        (cancel_booking exAsapState 9 0).2.bookings =
          m1 ++ markCanceled 0 exAsapBooking :: m2) ∧
      (exAsapBooking.assigned_shuttle_id = none →
        (cancel_booking exAsapState 9 0).2.shuttles = exAsapState.shuttles) ∧
      (∀ sid, exAsapBooking.assigned_shuttle_id = some sid →
        (∀ s ∈ exAsapState.shuttles, s.sid ≠ sid) →
        (cancel_booking exAsapState 9 0).2.shuttles = exAsapState.shuttles) ∧
      (∀ sid sh k1 k2, exAsapBooking.assigned_shuttle_id = some sid →
        exAsapState.shuttles = k1 ++ sh :: k2 → sh.sid = sid →
        (cancel_booking exAsapState 9 0).2.shuttles =
          k1 ++ decShuttle (exAsapBooking.seats.getD 1) sh :: k2)) :=
  ⟨⟨by decide, rfl, by decide, rfl⟩,
   cancel_booking_success_effects exAsapState 9 0 exAsapBooking
     (by decide) rfl (by decide) (Or.inl rfl)⟩

/-- The token of a successful booking, as a function of the selected
shuttle: needed to relate two calls in the determinism part of C8. -/
theorem create_booking_token (st : State) (b : BookingIn) (now : Int)
    (r : BookingResult) (st' : State) (s : ShuttleDoc)
    (h : create_booking st b now = (.ok r, st'))
    (hf : st.shuttles.find? (eligible b.campus) = some s) :
    r.qr_token = sign_qr (bookingPayload s b now) := by
  rcases create_booking_cases st b now with ⟨_, heq⟩ | ⟨_, _, heq⟩ |
    ⟨s', _, _, _, heq⟩ | ⟨s', _, hf', _, heq⟩
  · rw [h] at heq; simp at heq
  · rw [h] at heq; simp at heq
  · rw [h] at heq; simp at heq
  · rw [h] at heq
    have hr : r = successResult st s' b now := Except.ok.inj (congrArg Prod.fst heq)
    rw [hf'] at hf
    rw [hr, Option.some.inj hf]
    rfl

/-- C8: the boarding token of a successful booking is the URL-safe unpadded
base64 encoding of the HMAC-SHA-256 digest, under the process-wide secret,
of shuttle identifier, rider email and creation timestamp joined with `|`;
two successful calls with the same email, timestamp and selected-shuttle
identifier produce the same token. -/
theorem booking_token_formula (st : State) (b : BookingIn) (now : Int)
    (r : BookingResult) (st' : State)
    (h : create_booking st b now = (.ok r, st')) :
    (∃ s, st.shuttles.find? (eligible b.campus) = some s ∧
       r.qr_token = rstripEq (String.mk (b64encode (hmacSha256 (strBytes SECRET)
         (strBytes (s.identifier ++ "|" ++ b.email ++ "|" ++ isoTimestamp now)))))) ∧
    (∀ (st₂ st₂' : State) (r₂ : BookingResult) (s s₂ : ShuttleDoc),
       st.shuttles.find? (eligible b.campus) = some s →
       create_booking st₂ b now = (.ok r₂, st₂') →
       st₂.shuttles.find? (eligible b.campus) = some s₂ →
       s₂.identifier = s.identifier →
       r₂.qr_token = r.qr_token) := by
  constructor
  · rcases create_booking_cases st b now with ⟨_, heq⟩ | ⟨_, _, heq⟩ |
      ⟨s', _, _, _, heq⟩ | ⟨s', _, hf', _, heq⟩
    · rw [h] at heq; simp at heq
    · rw [h] at heq; simp at heq
    · rw [h] at heq; simp at heq
    · exact ⟨s', hf', create_booking_token st b now r st' s' h hf'⟩
  · intro st₂ st₂' r₂ s s₂ hf h₂ hf₂ hident
    rw [create_booking_token st₂ b now r₂ st₂' s₂ h₂ hf₂,
        create_booking_token st b now r st' s h hf]
    simp [sign_qr, bookingPayload, hident]

/-- C8 witness: the concrete booking's token against the concrete pipeline. -/
theorem booking_token_formula_witness :
    create_booking exState exBooking 0 =
      (.ok (successResult exState exShuttle exBooking 0),
       successState exState exShuttle exBooking 0) ∧
    (∃ s, exState.shuttles.find? (eligible exBooking.campus) = some s ∧
       (successResult exState exShuttle exBooking 0).qr_token =
         rstripEq (String.mk (b64encode (hmacSha256 (strBytes SECRET)
           (strBytes (s.identifier ++ "|" ++ exBooking.email ++ "|" ++ isoTimestamp 0)))))) ∧
    (∀ (st₂ st₂' : State) (r₂ : BookingResult) (s s₂ : ShuttleDoc),
       exState.shuttles.find? (eligible exBooking.campus) = some s →
       create_booking st₂ exBooking 0 = (.ok r₂, st₂') →
       st₂.shuttles.find? (eligible exBooking.campus) = some s₂ →
       s₂.identifier = s.identifier →
       r₂.qr_token = (successResult exState exShuttle exBooking 0).qr_token) :=
  ⟨rfl,
   (booking_token_formula exState exBooking 0
     (successResult exState exShuttle exBooking 0)
     (successState exState exShuttle exBooking 0) rfl).1,
   (booking_token_formula exState exBooking 0
     (successResult exState exShuttle exBooking 0)
     (successState exState exShuttle exBooking 0) rfl).2⟩

end SmartRide
